import Mathlib

/-!
Verification of the Volition GUPPI daemon core (src/guppi.py) against its
natural-language specification.

Modelling conventions:
* Python `str` values whose lengths matter are modelled as `List Char`
  (`PyStr`); slicing `s[:n]` is `List.take n`, `s[-n:]` is `pyTakeLast n`.
* Wall-clock times (`time.time()` floats) are modelled as rationals.
* `random.uniform(a, b)` is modelled as a parameter constrained to `[a, b]`.
* `uuid.uuid4()` minting is modelled as a parameter assumed fresh where the
  source relies on uniqueness.
* Python `hash(...)` of a content snippet is modelled by keeping the snippet
  itself (an injective deterministic stand-in; only determinism is used).
* Filesystem side effects are modelled explicitly: the overflow directory is
  an association list from file names to contents, and the journal rewrite is
  modelled as the list of file operations it issues.  Writes are modelled as
  succeeding (the source's exception fallbacks are not exercised).
-/

namespace Volition

/-- Python strings, as lists of characters. -/
abbrev PyStr := List Char

/-- Python slice `l[-n:]` for positive `n` (all uses in the source have `n > 0`). -/
def pyTakeLast {α : Type} (n : Nat) (l : List α) : List α :=
  l.drop (l.length - n)

/-! ## The Machete (`GuppiDaemon._truncate_output`, guppi.py lines 295-300)

Source:
```
def _truncate_output(self, text, limit=20000):
    if not text or len(text) <= limit:
        return text
    cut_size = len(text) - limit
    return text[:limit] + f"\n... [Hey this is ... {cut_size} chars removed, ... ] ..."
```
The `not text` guard (empty string) is subsumed by `length <= limit`. -/

/-- Text of the machete marker before the interpolated `cut_size`. -/
def macheteMarkerHead : PyStr :=
  ("\n... [Hey this is an automated thing set up by THE Abe -- Whatever you are trying, it was flagged because you are trying to spend more than 20k chars this turn. This is unadvised. Try to reduce the intake. Original Err Message: TRUNCATED BY GUPPI SAFETY ").data

/-- Text of the machete marker after the interpolated `cut_size`. -/
def macheteMarkerTail : PyStr :=
  (" chars removed, if you need to override this, Ping me on ntfy, set a todo in future + a clipboard entry to see if I responded, and hibernate] ...").data

/-- The full machete marker appended by `_truncate_output` when it cuts. -/
def macheteMarker (cut_size : Nat) : PyStr :=
  macheteMarkerHead ++ (toString cut_size).data ++ macheteMarkerTail

/-- `GuppiDaemon._truncate_output` (guppi.py lines 295-300). -/
def truncate_output (text : PyStr) (limit : Nat := 20000) : PyStr :=
  if text.length ≤ limit then text
  else text.take limit ++ macheteMarker (text.length - limit)

/-! ## Journal entries (the dict shapes built in guppi.py lines 748-774) -/

/-- The `results` dict fields the core reads or writes
(`stdout`, `stderr`, `code` from `_monitor_subprocess`; `error` from crash
recovery). -/
structure RDict where
  stdout : Option PyStr := none
  stderr : Option PyStr := none
  code : Option Int := none
  error : Option String := none
deriving DecidableEq

/-- A journal entry's `results` value: absent/None, a plain string, or a dict. -/
inductive PyResults where
  | pynull
  | str (s : PyStr)
  | dict (d : RDict)
deriving DecidableEq

/-- A journal entry (a JSON dict in `self.log_buffer`), restricted to the
fields the verified operations read or write. -/
structure Entry where
  id : String
  type : String
  agent : String := ""
  parent_event_id : Option String := none
  status : Option String := none
  results : PyResults := .pynull
  timestamp_outcome : Option String := none
deriving DecidableEq

/-- `_monitor_subprocess` result construction (guppi.py lines 311-319): both
captured streams pass through the machete before the results dict is built. -/
def monitor_results (stdout_str stderr_str : PyStr) (returncode : Int) : PyResults :=
  .dict { stdout := some (truncate_output stdout_str)
          stderr := some (truncate_output stderr_str)
          code := some returncode }

/-! ## `patch_abe_outcome` (guppi.py lines 780-827) -/

/-- The truncation marker used inside `patch_abe_outcome` (lines 790-792). -/
def patchTruncMarker (removed : Nat) : PyStr :=
  ("\n... [TRUNCATED BY GUPPI SAFETY: ").data ++ (toString removed).data
    ++ (" chars removed] ...").data

/-- The per-field truncation in `patch_abe_outcome` (lines 786-792). -/
def patch_truncate_field (s : PyStr) : PyStr :=
  if 20000 < s.length then s.take 20000 ++ patchTruncMarker (s.length - 20000)
  else s

/-- The whole-results truncation in `patch_abe_outcome` (lines 782-793):
only the `stdout`/`stderr` string fields of a dict are touched. -/
def patch_truncate_results (results : PyResults) : PyResults :=
  match results with
  | .dict d => .dict { d with stdout := d.stdout.map patch_truncate_field
                              stderr := d.stderr.map patch_truncate_field }
  | r => r

/-- The buffer scan of `patch_abe_outcome` (lines 797-805): the first entry
whose `id` equals `turn_id` is set to `completed` with the truncated results
and an outcome timestamp; the Bool is the `found` flag. -/
def patchFirst (turn_id : String) (tr : PyResults) (nowTs : String) :
    List Entry → List Entry × Bool
  | [] => ([], false)
  | e :: es =>
    if e.id = turn_id then
      ({ e with status := some "completed"
                timestamp_outcome := some nowTs
                results := tr } :: es, true)
    else
      let r := patchFirst turn_id tr nowTs es
      (e :: r.1, r.2)

/-- Observable effects of one `patch_abe_outcome` call. -/
structure PatchEffects where
  buffer : List Entry
  found : Bool
  /-- The `TaskCompleted` message pushed to `inbox:{name}` (its `action_id`
  and `results` fields), when one is pushed (lines 814-822). -/
  pushedTaskCompleted : Option (String × PyResults)
  /-- Whether the `"Orphaned task completion"` warning was logged (line 827). -/
  orphanWarningLogged : Bool
deriving DecidableEq

/-- `GuppiDaemon.patch_abe_outcome` (guppi.py lines 780-827).  Note the source
structure: the notification push is guarded only by `notify`, and the orphan
warning sits on the `else` of that same `if notify:` — not on `found`. -/
def patch_abe_outcome (buffer : List Entry) (turn_id : String)
    (results : PyResults) (notify : Bool) (nowTs : String) : PatchEffects :=
  let tr := patch_truncate_results results
  let pb := patchFirst turn_id tr nowTs buffer
  { buffer := pb.1
    found := pb.2
    pushedTaskCompleted := if notify then some (turn_id, tr) else none
    orphanWarningLogged := !notify }

/-! ## Crash recovery (`_perform_crash_recovery`, guppi.py lines 374-386) -/

/-- The per-entry step of `_perform_crash_recovery`: a pending `AbeTurn` is
marked interrupted with a crash error; every other entry is untouched. -/
def crash_recover_entry (nowTs : String) (e : Entry) : Entry :=
  if e.type = "AbeTurn" ∧ e.status = some "pending" then
    { e with status := some "interrupted"
             results := .dict { error := some "GUPPI Crash/Restart Detected" }
             timestamp_outcome := some nowTs }
  else e

/-- `GuppiDaemon._perform_crash_recovery` applied to the whole buffer. -/
def perform_crash_recovery (buffer : List Entry) (nowTs : String) : List Entry :=
  buffer.map (crash_recover_entry nowTs)

/-- The `recovered` flag deciding whether crash recovery rewrites the log. -/
def crash_recovery_rewrites (buffer : List Entry) : Bool :=
  buffer.any (fun e => e.type == "AbeTurn" && e.status == some "pending")

/-! ## Journal rewrite file operations (C4)

`_rewrite_log_file` (guppi.py lines 673-679) and `_rewrite_log_file_sync`
(lines 388-397) both do: open a `NamedTemporaryFile` in the log's directory,
write every buffer entry as a JSON line, then `os.replace` the temp file over
`working.log`.  Neither calls `fsync`.  We model the sequence of file
operations each rewrite issues. -/

/-- File operations a journal rewrite can issue. -/
inductive FileOp where
  | openTemp (dir : String)
  | writeEntry (e : Entry)
  | fsyncTemp
  | rename (target : String)
deriving DecidableEq

/-- The operation trace of `_rewrite_log_file` / `_rewrite_log_file_sync`. -/
def rewrite_log_file_ops (buffer : List Entry) (logDir logFile : String) :
    List FileOp :=
  FileOp.openTemp logDir :: (buffer.map FileOp.writeEntry ++ [FileOp.rename logFile])

/-- A journal mutation: whether it runs under `self.log_lock`, and the file
operations it issues. -/
structure JournalMutation where
  underLogLock : Bool
  ops : List FileOp
deriving DecidableEq

/-- `log_guppi_event` (guppi.py lines 748-760): append under the lock, rewrite. -/
def log_guppi_event_mutation (buffer : List Entry) (newEvent : Entry)
    (dir file : String) : JournalMutation :=
  { underLogLock := true
    ops := rewrite_log_file_ops (buffer ++ [newEvent]) dir file }

/-- `log_abe_intent` (guppi.py lines 762-774): append under the lock, rewrite. -/
def log_abe_intent_mutation (buffer : List Entry) (newTurn : Entry)
    (dir file : String) : JournalMutation :=
  { underLogLock := true
    ops := rewrite_log_file_ops (buffer ++ [newTurn]) dir file }

/-- The rewrite issued by `patch_abe_outcome` when the entry is found
(guppi.py lines 796-808); it holds the lock. -/
def patch_outcome_mutation (buffer : List Entry) (turn_id : String)
    (results : PyResults) (notify : Bool) (nowTs dir file : String) :
    JournalMutation :=
  { underLogLock := true
    ops :=
      if (patch_abe_outcome buffer turn_id results notify nowTs).found then
        rewrite_log_file_ops
          (patch_abe_outcome buffer turn_id results notify nowTs).buffer dir file
      else [] }

/-- The crash-recovery rewrite (guppi.py lines 374-397): it runs synchronously
in `__init__`, before the event loop starts, and does not take `log_lock`. -/
def crash_recovery_mutation (buffer : List Entry) (nowTs dir file : String) :
    JournalMutation :=
  { underLogLock := false
    ops :=
      if crash_recovery_rewrites buffer then
        rewrite_log_file_ops (perform_crash_recovery buffer nowTs) dir file
      else [] }

/-! ## Governor (guppi.py lines 102-103 and 195-209) -/

/-- `GOVERNOR_LIMIT = 15` (guppi.py line 102). -/
def GOVERNOR_LIMIT : Nat := 15

/-- `GOVERNOR_WINDOW = 300` seconds (guppi.py line 103). -/
def GOVERNOR_WINDOW : ℚ := 300

/-- `Governor.check_limit` (guppi.py lines 203-209): prune the call history to
the trailing window, reject if it already holds `GOVERNOR_LIMIT` entries,
otherwise record `now` and accept. -/
def check_limit (call_history : List ℚ) (now : ℚ) : List ℚ × Bool :=
  let h := call_history.filter (fun t => now - t < GOVERNOR_WINDOW)
  if GOVERNOR_LIMIT ≤ h.length then (h, false)
  else (h ++ [now], true)

/-- The accepted call times produced by running `check_limit` over a trace of
call times, starting from history `s`. -/
def govAccepts (s : List ℚ) : List ℚ → List ℚ
  | [] => []
  | t :: ts =>
    let r := check_limit s t
    if r.2 then t :: govAccepts r.1 ts else govAccepts r.1 ts

/-! ## Think-cycle urgency and governor gate (guppi.py lines 1291-1325) -/

/-- The payload fields `run_think_cycle` inspects for urgency. -/
structure Payload where
  event_type : Option String := none
  event : Option String := none
  raw_event : Option String := none
deriving DecidableEq

/-- The event-data envelope fields `run_think_cycle` inspects. -/
structure EventData where
  channel : Option String := none
  event : Option String := none
  payload : Payload := {}
deriving DecidableEq

/-- The `original_event` extraction (guppi.py lines 1300-1305):
`payload.event_type or payload.event or payload.raw.event or event_data.event`.
(Python `or` also skips empty strings; that edge is not modelled.) -/
def original_event (d : EventData) : Option String :=
  d.payload.event_type.orElse fun _ =>
    d.payload.event.orElse fun _ =>
      d.payload.raw_event.orElse fun _ => d.event

/-- The urgency test (guppi.py lines 1307-1314). -/
def is_urgent (d : EventData) (system_notice : Option String) : Bool :=
  d.channel == some "chat:synchronous" || system_notice.isSome
    || d.event == some "Alarm" || original_event d == some "TaskCompleted"

/-- Outcome of the governor gate at the top of `run_think_cycle`. -/
inductive GateOutcome where
  | rejected (rateLimitAlertLogged : Bool) (newCooldownUntil : ℚ)
  | proceed
deriving DecidableEq

/-- The governor gate of `run_think_cycle` (guppi.py lines 1316-1323): urgent
cycles skip the governor entirely; a rejected non-urgent cycle logs a
rate-limit alert, sets `cooldown_until = now + 60`, and returns before any
LLM call. -/
def governor_gate (d : EventData) (system_notice : Option String)
    (call_history : List ℚ) (now : ℚ) : List ℚ × GateOutcome :=
  if is_urgent d system_notice then (call_history, .proceed)
  else
    let r := check_limit call_history now
    if r.2 then (r.1, .proceed)
    else (r.1, .rejected true (now + 60))

/-! ## Flash escalation (guppi.py lines 117 and 1330-1404) -/

/-- `FLASH_FORBIDDEN_TOOLS` (guppi.py line 117).  The spec names the
remote-provisioning tool `spawn_agent`; in the source it is `spawn_abe`. -/
def FLASH_FORBIDDEN_TOOLS : List String :=
  ["shell", "write_file", "spawn_abe", "remote_exec", "spawn_scribe"]

/-- Model selection in `run_think_cycle` (guppi.py lines 1334-1343): the
chosen model id and the `is_flash` flag. -/
def select_model (modelPro modelFlash : String) (force_model : Option String)
    (is_chat : Bool) : String × Bool :=
  match force_model with
  | some m => (m, m == modelFlash)
  | none => if is_chat then (modelFlash, true) else (modelPro, false)

/-- What the think cycle does with the chosen tool after the LLM reply. -/
inductive ThinkDispatch where
  /-- The escalation branch (guppi.py lines 1389-1404): one
  `EscalationTrigger` event is logged and the cycle recurses with the given
  `force_model` and a system notice. -/
  | escalate (escalationEventsLogged : Nat) (recurseForceModel : String)
      (systemNoticePresent : Bool)
  /-- The normal branch: journal the intent and execute the tool. -/
  | dispatchTool (tool : String)
deriving DecidableEq

/-- The implicit-escalation gate (guppi.py lines 1388-1404). -/
def flash_escalation_gate (modelPro : String) (is_flash : Bool) (tool : String) :
    ThinkDispatch :=
  if is_flash = true ∧ tool ∈ FLASH_FORBIDDEN_TOOLS then
    ThinkDispatch.escalate 1 modelPro true
  else
    ThinkDispatch.dispatchTool tool

/-! ## Inbox dedupe and maintenance gates (`_handle_inbox_item`,
guppi.py lines 960-1051) -/

/-- The fields of a normalized message (`norm["observed"]` plus
`norm["derived"]["kind"]`) that `_handle_inbox_item` reads.  `observed_event`
models `observed.get("event")`, which `_normalize_inbox_payload` never sets.
`content_snip` stands for the (stably serialized) first 300 characters of the
content; the Python `hash` of it is modelled injectively. -/
structure NormObserved where
  event_type : Option String := none
  observed_event : Option String := none
  action_id : Option String := none
  meta_action_id : Option String := none
  meta_id : Option String := none
  meta_maintenance_true : Bool := false
  meta_has_source_tier_1 : Bool := false
  meta_mode : Option String := none
  meta_job_type : Option String := none
  content_snip : String := ""
  kind : String := "Unknown"
deriving DecidableEq

/-- The action-id preference in the dedupe block (guppi.py lines 977-981). -/
def dedupe_action_id (m : NormObserved) : Option String :=
  m.action_id.orElse fun _ => m.meta_action_id.orElse fun _ => m.meta_id

/-- `evt_type` (guppi.py line 982). -/
def dedupe_evt_type (m : NormObserved) : String :=
  match m.event_type.orElse fun _ => m.observed_event with
  | some s => s
  | none => "unknown"

/-- `is_maintenance` (guppi.py lines 986-990). -/
def is_maintenance (m : NormObserved) : Bool :=
  m.meta_maintenance_true || m.meta_has_source_tier_1
    || (m.meta_mode == some "summarize")

/-- The trigger fingerprint (guppi.py lines 992-1006): scribe results and
maintenance messages mint a fresh unique id; otherwise the action id, else
the event type joined with the content-snippet hash. -/
def trigger_id (m : NormObserved) (freshUuid : String) : String :=
  if dedupe_evt_type m == "ScribeResult" || is_maintenance m then
    "scribe:" ++ freshUuid
  else
    match dedupe_action_id m with
    | some a => a
    | none => dedupe_evt_type m ++ ":" ++ m.content_snip

/-- `processed_triggers` pruning (guppi.py lines 1010-1012): keep entries
whose observation time is after `now - ttl`. -/
def prune_triggers (cache : List (String × ℚ)) (now ttl : ℚ) :
    List (String × ℚ) :=
  cache.filter (fun kv => now - ttl < kv.2)

/-- The archive filter of `_archive_inbox_message` (guppi.py lines 653-658). -/
def archive_should (m : NormObserved) : Bool :=
  m.kind == "HumanMessage" || m.kind == "StructuredMessage"
    || m.kind == "RawMessage" || m.kind == "Unknown"

/-- Observable effects of one `_handle_inbox_item` call. -/
structure HandleEffects where
  droppedDuplicate : Bool
  archived : Bool
  ranThinkCycle : Bool
deriving DecidableEq

/-- `_handle_inbox_item` (guppi.py lines 960-1051), from the dedupe block on:
prune the trigger cache, drop a seen fingerprint before archiving or thinking,
otherwise record the fingerprint, archive, run the maintenance gates
(`update_stub`, silent scribe), and finally trigger a think cycle. -/
def handle_inbox_item (cache : List (String × ℚ)) (m : NormObserved)
    (freshUuid : String) (now : ℚ) : List (String × ℚ) × HandleEffects :=
  let tid := trigger_id m freshUuid
  let pruned := prune_triggers cache now 90
  if tid ∈ pruned.map Prod.fst then
    (pruned, { droppedDuplicate := true, archived := false, ranThinkCycle := false })
  else
    let cache2 := pruned ++ [(tid, now)]
    let archived := archive_should m
    if m.meta_job_type == some "update_stub" then
      (cache2, { droppedDuplicate := false, archived, ranThinkCycle := false })
    else if m.meta_maintenance_true || m.meta_has_source_tier_1 then
      (cache2, { droppedDuplicate := false, archived, ranThinkCycle := false })
    else
      (cache2, { droppedDuplicate := false, archived, ranThinkCycle := true })

/-! ## Overflow-safe log window (`_sanitize_history_block`,
guppi.py lines 464-520) -/

/-- The overflow directory, as an association list from file name to content. -/
abbrev OverflowFs := List (String × PyStr)

/-- Look a file up in the overflow directory. -/
def fsLookup (fs : OverflowFs) (name : String) : Option PyStr :=
  (fs.find? (fun kv => kv.1 == name)).map Prod.snd

/-- Write a new file into the overflow directory. -/
def fsWrite (fs : OverflowFs) (name : String) (content : PyStr) : OverflowFs :=
  fs ++ [(name, content)]

/-- Marker text before the removed count (guppi.py line 505). -/
def overflowMarkerA : PyStr := ("\n... [OUTPUT TRUNCATED: ").data

/-- Marker text between the removed count and the file name. -/
def overflowMarkerB : PyStr := (" chars removed. Saved to: ").data

/-- Marker text after the file name. -/
def overflowMarkerC : PyStr := ("] ...\n").data

/-- `_process_text` inside `_sanitize_history_block` (guppi.py lines 486-507):
text within the cap passes through; otherwise the full text is written (once,
idempotently) to `{turn_id}{suffix}.txt` and the field becomes
`head + marker + tail` with `split = cap / 2`. -/
def process_text (char_limit : Nat) (turn_id : String) (fs : OverflowFs)
    (text : PyStr) (suffix : String := "") : PyStr × OverflowFs :=
  if text.length ≤ char_limit then (text, fs)
  else
    let safe_name := turn_id ++ suffix ++ ".txt"
    let fs2 := if (fsLookup fs safe_name).isSome then fs
               else fsWrite fs safe_name text
    let split_size := char_limit / 2
    let head := text.take split_size
    let tail := pyTakeLast split_size text
    let removed := text.length - char_limit
    (head ++ overflowMarkerA ++ (toString removed).data ++ overflowMarkerB
       ++ safe_name.data ++ overflowMarkerC ++ tail, fs2)

/-- One entry of the sanitized window (guppi.py lines 481-519): a string
`results` is processed directly; a dict has its `stdout`/`stderr` string
fields processed with suffixes `-stdout`/`-stderr`. -/
def sanitize_entry (char_limit : Nat) (fs : OverflowFs) (e : Entry) :
    Entry × OverflowFs :=
  match e.results with
  | .str s =>
    let r := process_text char_limit e.id fs s ""
    ({ e with results := .str r.1 }, r.2)
  | .dict d =>
    let r1 := match d.stdout with
      | some s =>
        let p := process_text char_limit e.id fs s "-stdout"
        (some p.1, p.2)
      | none => (none, fs)
    let r2 := match d.stderr with
      | some s =>
        let p := process_text char_limit e.id r1.2 s "-stderr"
        (some p.1, p.2)
      | none => (none, r1.2)
    ({ e with results := .dict { d with stdout := r1.1, stderr := r2.1 } }, r2.2)
  | .pynull => (e, fs)

/-- The windowed pass of `_sanitize_history_block`: the most recent entry of
the window (`i == len(buffer_copy) - 1`) uses the 50000-char cap, all older
entries the 1000-char cap. -/
def sanitize_entries (fs : OverflowFs) : List Entry → List Entry × OverflowFs
  | [] => ([], fs)
  | [e] =>
    let r := sanitize_entry 50000 fs e
    ([r.1], r.2)
  | e :: e2 :: es =>
    let r := sanitize_entry 1000 fs e
    let rest := sanitize_entries r.2 (e2 :: es)
    (r.1 :: rest.1, rest.2)

/-- `_sanitize_history_block` (guppi.py lines 464-520) on the last `limit`
entries of the journal buffer. -/
def sanitize_history_block (log_buffer : List Entry) (limit : Nat)
    (fs : OverflowFs) : List Entry × OverflowFs :=
  sanitize_entries fs (pyTakeLast limit log_buffer)

/-! ## Refractory scheduler arming and cooldown (`main_wait_loop`,
guppi.py lines 1144-1283) -/

/-- The stimulus sources the main loop can arm. -/
inductive StimulusSource where
  | streams
  | internalQueue
  | localWakeup
  | inboxPop
  | alarmTimer
  | cooldownTimer
deriving DecidableEq

/-- Which task slots one loop iteration arms (guppi.py lines 1148-1174):
group A (streams, internal queue, local wakeup) is always armed; inbox pop
and the alarm timer only outside cooldown; during cooldown a single timer for
the remaining time is armed instead. -/
def armed_sources (now cooldown_until : ℚ) : List StimulusSource :=
  let base := [StimulusSource.streams, StimulusSource.internalQueue,
    StimulusSource.localWakeup]
  if now < cooldown_until then
    base ++ (if 0 < cooldown_until - now then [StimulusSource.cooldownTimer] else [])
  else
    base ++ [StimulusSource.inboxPop, StimulusSource.alarmTimer]

/-- Cooldown set after a chat-stream cycle (guppi.py line 1235). -/
def post_chat_cooldown (now : ℚ) : ℚ := now + 5

/-- Cooldown set after the inbox cycle and its burst drain (guppi.py
line 1278); `u` models `random.uniform(10, 30)`. -/
def post_inbox_cooldown (now u : ℚ) : ℚ := now + u

/-- Cooldown set after an alarm cycle (guppi.py line 1283). -/
def post_alarm_cooldown (now u : ℚ) : ℚ := now + u

/-- The final `cooldown_until` after one iteration's dispatch sequence
(chat block, then inbox block, then alarm block; each overwrites the last,
guppi.py lines 1235, 1278, 1283). -/
def iteration_final_cooldown (cu0 : ℚ) (chatCycle : Bool) (tChat : ℚ)
    (inboxCycle : Bool) (tInbox uInbox : ℚ)
    (alarmCycle : Bool) (tAlarm uAlarm : ℚ) : ℚ :=
  let c1 := if chatCycle then post_chat_cooldown tChat else cu0
  let c2 := if inboxCycle then post_inbox_cooldown tInbox uInbox else c1
  if alarmCycle then post_alarm_cooldown tAlarm uAlarm else c2

/-! ## Module-level configuration order (guppi.py lines 51-125, C10) -/

/-- A module-level statement, as far as name binding is concerned. -/
inductive ModStmt where
  /-- `NAME = <expr>` where the expr references no tracked module name. -/
  | assign (name : String)
  /-- `if cond: NAME.warning(...)` — references `NAME` when `cond` holds. -/
  | useNameIf (cond : Bool) (name : String)

/-- Run module statements in order, tracking defined names; referencing an
undefined name raises `NameError`, aborting module import (so the daemon
never starts). -/
def runModuleStmts : List String → List ModStmt → Except String (List String)
  | env, [] => Except.ok env
  | env, ModStmt.assign n :: rest => runModuleStmts (n :: env) rest
  | env, ModStmt.useNameIf c n :: rest =>
    if c then
      if env.contains n then runModuleStmts env rest
      else Except.error ("NameError: name " ++ n ++ " is not defined")
    else runModuleStmts env rest

/-- The module-level configuration block of guppi.py (lines 51-125), in
source order.  `ntfy_url_set` / `ntfy_token_set` model the truthiness of the
`NTFY_URL` / `NTFY_TOKEN` environment values; the guard on line 81 references
`logger`, which is only assigned on line 125. -/
def guppi_module_config (ntfy_url_set ntfy_token_set : Bool) : List ModStmt :=
  [ ModStmt.assign "ABE_ROOT", ModStmt.assign "IDENTITY_FILE",
    ModStmt.assign "PRIORS_SOURCE_FILE", ModStmt.assign "PRIORS_STUB_FILE",
    ModStmt.assign "WORKING_LOG", ModStmt.assign "TODO_DB",
    ModStmt.assign "BIN_DIR", ModStmt.assign "DOCS_DIR",
    ModStmt.assign "MEMORY_DIR", ModStmt.assign "EPISODES_DIR",
    ModStmt.assign "ARCHIVE_DIR", ModStmt.assign "VECTOR_DB_PATH",
    ModStmt.assign "COMM_LOG", ModStmt.assign "GENESIS_PROMPT_FILE",
    ModStmt.assign "PROTOCOLS_FILE", ModStmt.assign "DOWNLOADS_DIR",
    ModStmt.assign "LOGS_DIR", ModStmt.assign "INBOX_DUMP_LOG",
    ModStmt.assign "REDIS_HOST", ModStmt.assign "REDIS_PORT",
    ModStmt.assign "REDIS_PASSWORD", ModStmt.assign "REDIS_URL",
    ModStmt.assign "NTFY_URL", ModStmt.assign "NTFY_TOKEN",
    ModStmt.useNameIf (!(ntfy_url_set && ntfy_token_set)) "logger",
    ModStmt.assign "SEARXNG_URL", ModStmt.assign "LLM_PROVIDER",
    ModStmt.assign "GEMINI_API_KEY", ModStmt.assign "OPENROUTER_API_KEY",
    ModStmt.assign "OPENROUTER_SITE_URL", ModStmt.assign "OPENROUTER_APP_NAME",
    ModStmt.assign "GEMINI_MODEL", ModStmt.assign "MODEL_PRO",
    ModStmt.assign "MODEL_FLASH", ModStmt.assign "SOCIAL_DIGEST_STREAM",
    ModStmt.assign "GOVERNOR_LIMIT", ModStmt.assign "GOVERNOR_WINDOW",
    ModStmt.assign "MAX_CONCURRENT_SUBPROCS", ModStmt.assign "SSH_CMD_TIMEOUT",
    ModStmt.assign "SUBPROC_TIMEOUT", ModStmt.assign "REDIS_RETRY_ATTEMPTS",
    ModStmt.assign "REDIS_RETRY_BASE", ModStmt.assign "DEFAULT_LOCK_TTL_MS",
    ModStmt.assign "STREAM_DENY_LIST", ModStmt.assign "FLASH_FORBIDDEN_TOOLS",
    ModStmt.assign "logger" ]

/-! ## Shared helper lemmas -/

/-- `patchFirst` leaves unmatched entries untouched and rewrites the first
matching entry to `completed` with the supplied results and timestamp,
regardless of its previous status; when nothing matched, the buffer is
returned unchanged. -/
theorem patchFirst_spec (turn_id : String) (tr : PyResults) (ts : String) :
    ∀ buffer : List Entry,
      List.Forall₂ (fun e e' =>
          e' = e ∨
          (e.id = turn_id ∧
            e' = { e with status := some "completed", timestamp_outcome := some ts,
                          results := tr }))
        buffer (patchFirst turn_id tr ts buffer).1 ∧
      ((patchFirst turn_id tr ts buffer).2 = false →
        (patchFirst turn_id tr ts buffer).1 = buffer) := by
  intro buffer
  induction buffer with
  | nil => exact ⟨List.Forall₂.nil, fun _ => rfl⟩
  | cons e es ih =>
    by_cases h : e.id = turn_id
    · refine ⟨?_, ?_⟩
      · simp only [patchFirst, if_pos h]
        exact List.Forall₂.cons (Or.inr ⟨h, rfl⟩)
          (List.forall₂_same.mpr fun x _ => Or.inl rfl)
      · intro hf
        simp only [patchFirst, if_pos h] at hf
        exact Bool.noConfusion hf
    · refine ⟨?_, ?_⟩
      · simp only [patchFirst, if_neg h]
        exact List.Forall₂.cons (Or.inl rfl) ih.1
      · intro hf
        simp only [patchFirst, if_neg h] at hf ⊢
        rw [ih.2 hf]

/-- The trigger fingerprint of a non-scribe, non-maintenance message does not
depend on the minted uuid: it is a pure function of the message. -/
theorem trigger_id_nonscribe (m : NormObserved) (u1 u2 : String)
    (h1 : dedupe_evt_type m ≠ "ScribeResult") (h2 : is_maintenance m = false) :
    trigger_id m u1 = trigger_id m u2 := by
  have hcond : ¬((dedupe_evt_type m == "ScribeResult" || is_maintenance m) = true) := by
    simp only [h2, Bool.or_false, beq_iff_eq]
    exact h1
  rw [trigger_id, trigger_id, if_neg hcond, if_neg hcond]

/-- The trigger fingerprint of a scribe or maintenance message is the freshly
minted unique id. -/
theorem trigger_id_scribe (m : NormObserved) (u : String)
    (h : dedupe_evt_type m = "ScribeResult" ∨ is_maintenance m = true) :
    trigger_id m u = "scribe:" ++ u := by
  have hcond : (dedupe_evt_type m == "ScribeResult" || is_maintenance m) = true := by
    rcases h with h | h
    · simp [h]
    · simp [h]
  rw [trigger_id, if_pos hcond]

/-! ## Claim theorems -/

/-- C1: `patch_abe_outcome`, called with a `turn_id` matching no buffer
entry and `notify = true`, still pushes a `TaskCompleted` notification for
the nonexistent turn and logs no orphan warning: in the source the orphan
warning hangs on the `else` of `if notify:` (line 827), not on the `found`
flag, contradicting the warning's own text and the spec's OrphanedOutcome
handling.  This theorem evaluates the code at that failing input. -/
theorem C1_orphan_patch_still_notifies :
    (patch_abe_outcome [] "turn-x" (.dict { stdout := some ("ok").data }) true "ts").found
        = false ∧
    (patch_abe_outcome [] "turn-x" (.dict { stdout := some ("ok").data }) true "ts").pushedTaskCompleted
        = some ("turn-x", .dict { stdout := some ("ok").data }) ∧
    (patch_abe_outcome [] "turn-x" (.dict { stdout := some ("ok").data }) true "ts").orphanWarningLogged
        = false := by
  decide

/-- C2 counterexample: a 20001-character capture leaves `_truncate_output`
with length strictly greater than 20000 — the machete appends its marker
after the 20000-character cut, so the output is not capped at 20000. -/
theorem C2_counterexample :
    20000 < (truncate_output (List.replicate 20001 'a') 20000).length := by
  rw [truncate_output, if_neg (by simp only [List.length_replicate]; omega)]
  rw [List.length_append, List.length_take, List.length_replicate]
  have h2 : 0 < (macheteMarker (20001 - 20000)).length := by
    rw [macheteMarker, List.length_append, List.length_append]
    have h3 : 0 < macheteMarkerHead.length := by
      set_option maxRecDepth 40000 in decide
    omega
  omega

/-- C2 amended: the machete keeps at most the first 20000 characters of a
captured stream; inputs within the cap pass unchanged, longer inputs become
the first 20000 characters followed by the fixed-form marker (so the total
length is 20000 plus the marker length, slightly above 20000). -/
theorem C2_machete_amended :
    ∀ text : PyStr,
      (text.length ≤ 20000 → truncate_output text = text) ∧
      (20000 < text.length →
        truncate_output text
            = text.take 20000 ++ macheteMarker (text.length - 20000) ∧
        (truncate_output text).length
            = 20000 + (macheteMarker (text.length - 20000)).length) := by
  intro text
  constructor
  · intro h
    rw [truncate_output, if_pos h]
  · intro h
    have heq : truncate_output text
        = text.take 20000 ++ macheteMarker (text.length - 20000) := by
      rw [truncate_output, if_neg (by omega)]
    refine ⟨heq, ?_⟩
    rw [heq, List.length_append, List.length_take]
    omega

/-- C2 amended, witness at a concrete 20001-character capture. -/
theorem C2_machete_amended_witness :
    truncate_output (List.replicate 20001 'a')
      = List.take 20000 (List.replicate 20001 'a')
          ++ macheteMarker ((List.replicate 20001 'a' : PyStr).length - 20000) :=
  ((C2_machete_amended (List.replicate 20001 'a')).2
    (by simp only [List.length_replicate]; omega)).1

/-- C3 counterexample: `patch_abe_outcome` has no status guard — called on a
buffer whose only entry is an `interrupted` `AbeTurn`, it rewrites that entry
to `completed`, replacing its results and outcome timestamp outright, so a
final-state entry is modified beyond mere truncation of its results. -/
theorem C3_counterexample :
    (patch_abe_outcome
        [{ id := "turn-1", type := "AbeTurn", status := some "interrupted",
           results := .dict { error := some "GUPPI Crash/Restart Detected" },
           timestamp_outcome := some "t1" }]
        "turn-1" (.str ("done").data) true "t2").buffer
      = [{ id := "turn-1", type := "AbeTurn", status := some "completed",
           results := .str ("done").data, timestamp_outcome := some "t2" }] := by
  decide

/-- C3 amended: crash recovery moves exactly the pending `AbeTurn` entries to
`interrupted` (every status it changes was `pending`), and `patch_abe_outcome`
rewrites at most the first entry whose id matches, unconditionally setting it
to `completed` with the truncated results — with no check that its current
status is `pending`; unmatched buffers are returned unchanged.  Forward-only
transitions therefore hold only under the discipline that `patch_outcome` is
invoked once per turn, while that turn is still pending. -/
theorem C3_transitions_amended :
    ∀ (buffer : List Entry) (nowTs turn_id : String) (results : PyResults)
      (notify : Bool) (ts : String),
      (∀ e ∈ buffer,
        (crash_recover_entry nowTs e).status ≠ e.status →
          e.status = some "pending" ∧ e.type = "AbeTurn" ∧
          (crash_recover_entry nowTs e).status = some "interrupted") ∧
      List.Forall₂ (fun e e' =>
          e' = e ∨
          (e.id = turn_id ∧
            e' = { e with status := some "completed", timestamp_outcome := some ts,
                          results := patch_truncate_results results }))
        buffer (patch_abe_outcome buffer turn_id results notify ts).buffer ∧
      ((patch_abe_outcome buffer turn_id results notify ts).found = false →
        (patch_abe_outcome buffer turn_id results notify ts).buffer = buffer) := by
  intro buffer nowTs turn_id results notify ts
  refine ⟨?_, ?_, ?_⟩
  · intro e _ hst
    rw [crash_recover_entry] at hst ⊢
    by_cases hc : e.type = "AbeTurn" ∧ e.status = some "pending"
    · rw [if_pos hc] at hst ⊢
      exact ⟨hc.2, hc.1, rfl⟩
    · rw [if_neg hc] at hst
      exact absurd rfl hst
  · exact (patchFirst_spec turn_id (patch_truncate_results results) ts buffer).1
  · exact (patchFirst_spec turn_id (patch_truncate_results results) ts buffer).2

/-- C3 amended, witness: patching a turn id absent from a concrete one-entry
buffer leaves the buffer unchanged. -/
theorem C3_transitions_amended_witness :
    (patch_abe_outcome [{ id := "evt-1", type := "GUPPIEvent" }] "turn-z"
        (.str ("r").data) true "t2").buffer
      = [{ id := "evt-1", type := "GUPPIEvent" }] :=
  (C3_transitions_amended [{ id := "evt-1", type := "GUPPIEvent" }] "t0" "turn-z"
    (.str ("r").data) true "t2").2.2 (by decide)

/-- C4 counterexample: the rewrite issued by an event append performs no
fsync at all — `_rewrite_log_file` opens the temp file, writes the entries,
and renames, so the claimed fsync-before-rename step does not exist. -/
theorem C4_counterexample :
    FileOp.fsyncTemp ∉
      (log_guppi_event_mutation [] { id := "evt-1", type := "GUPPIEvent" }
        "/home/abe" "working.log").ops := by
  decide

/-- C4 amended: every journal rewrite writes all buffer entries to a
temporary file opened in the log's directory and then renames it over the
log file as its final operation, with no fsync anywhere in the sequence; the
event-append, intent-append and outcome-patch mutations run under the single
log lock, while the startup crash-recovery rewrite runs outside it. -/
theorem C4_rewrite_amended :
    ∀ (buffer : List Entry) (dir file : String) (ev turn : Entry)
      (turn_id : String) (results : PyResults) (notify : Bool) (nowTs : String),
      rewrite_log_file_ops buffer dir file
          = FileOp.openTemp dir :: (buffer.map FileOp.writeEntry
              ++ [FileOp.rename file]) ∧
      FileOp.fsyncTemp ∉ rewrite_log_file_ops buffer dir file ∧
      (∀ e ∈ buffer, FileOp.writeEntry e ∈ rewrite_log_file_ops buffer dir file) ∧
      (log_guppi_event_mutation buffer ev dir file).underLogLock = true ∧
      (log_abe_intent_mutation buffer turn dir file).underLogLock = true ∧
      (patch_outcome_mutation buffer turn_id results notify nowTs dir file).underLogLock
          = true ∧
      (crash_recovery_mutation buffer nowTs dir file).underLogLock = false := by
  intro buffer dir file ev turn turn_id results notify nowTs
  refine ⟨rfl, ?_, ?_, rfl, rfl, rfl, rfl⟩
  · intro hmem
    rw [rewrite_log_file_ops] at hmem
    rcases List.mem_cons.mp hmem with h | h
    · exact FileOp.noConfusion h
    · rcases List.mem_append.mp h with h | h
      · rcases List.mem_map.mp h with ⟨e, _, he⟩
        exact FileOp.noConfusion he
      · rcases List.mem_singleton.mp h with h
        exact FileOp.noConfusion h
  · intro e he
    rw [rewrite_log_file_ops]
    exact List.mem_cons_of_mem _ (List.mem_append_left _ (List.mem_map_of_mem _ he))

/-- C4 amended, witness on a concrete one-entry buffer. -/
theorem C4_rewrite_amended_witness :
    (crash_recovery_mutation [{ id := "evt-1", type := "GUPPIEvent" }] "t0"
        "/home/abe" "working.log").underLogLock = false ∧
    FileOp.fsyncTemp ∉ rewrite_log_file_ops
        [{ id := "evt-1", type := "GUPPIEvent" }] "/home/abe" "working.log" :=
  ⟨(C4_rewrite_amended [{ id := "evt-1", type := "GUPPIEvent" }] "/home/abe"
      "working.log" { id := "evt-1", type := "GUPPIEvent" }
      { id := "evt-1", type := "GUPPIEvent" } "t" .pynull true "t0").2.2.2.2.2.2,
   (C4_rewrite_amended [{ id := "evt-1", type := "GUPPIEvent" }] "/home/abe"
      "working.log" { id := "evt-1", type := "GUPPIEvent" }
      { id := "evt-1", type := "GUPPIEvent" } "t" .pynull true "t0").2.1⟩

/-- C6: whenever the selected tier is Flash and the chosen tool lies in the
Flash-forbidden set (`shell`, `write_file`, `spawn_abe` — the spec's
`spawn_agent` —, `remote_exec`, `spawn_scribe`), the think cycle does not
dispatch the tool: it logs exactly one escalation event and recurses with
`force_model = Pro` and a system notice; conversely a dispatch implies the
tier was not Flash or the tool was permitted. -/
theorem C6_flash_escalation :
    ∀ (modelPro modelFlash : String) (force_model : Option String)
      (is_chat : Bool) (tool : String),
      ((select_model modelPro modelFlash force_model is_chat).2 = true →
        tool ∈ FLASH_FORBIDDEN_TOOLS →
          flash_escalation_gate modelPro
              (select_model modelPro modelFlash force_model is_chat).2 tool
            = ThinkDispatch.escalate 1 modelPro true) ∧
      (∀ is_flash : Bool,
        flash_escalation_gate modelPro is_flash tool
            = ThinkDispatch.dispatchTool tool →
          is_flash = false ∨ tool ∉ FLASH_FORBIDDEN_TOOLS) := by
  intro modelPro modelFlash force_model is_chat tool
  constructor
  · intro h1 h2
    rw [flash_escalation_gate, if_pos ⟨h1, h2⟩]
  · intro is_flash h
    by_cases hc : is_flash = true ∧ tool ∈ FLASH_FORBIDDEN_TOOLS
    · rw [flash_escalation_gate, if_pos hc] at h
      exact ThinkDispatch.noConfusion h
    · rcases not_and_or.mp hc with h | h
      · exact Or.inl (Bool.not_eq_true is_flash ▸ h)
      · exact Or.inr h

/-- C6 witness: a Flash-selected chat cycle that chooses `shell` escalates. -/
theorem C6_flash_escalation_witness :
    flash_escalation_gate "pro-model"
        (select_model "pro-model" "flash-model" none true).2 "shell"
      = ThinkDispatch.escalate 1 "pro-model" true :=
  (C6_flash_escalation "pro-model" "flash-model" none true "shell").1 rfl
    (by decide)

/-- C9: during cooldown (`now < cooldown_until`) the loop arms the three hot
sources plus a single cooldown timer — no inbox pop and no alarm timer —
while outside cooldown it arms the hot sources plus inbox and alarm; the hot
sources are armed in every iteration; and after an inbox or alarm cycle the
new `cooldown_until` lies in `[now + 10, now + 30]` (the alarm block runs
last and overwrites the inbox block's value when both fire). -/
theorem C9_refractory :
    ∀ (now cu cu0 : ℚ) (chatCycle : Bool) (tChat : ℚ) (inboxCycle : Bool)
      (tInbox uInbox : ℚ) (alarmCycle : Bool) (tAlarm uAlarm : ℚ),
      (now < cu →
        armed_sources now cu
          = [StimulusSource.streams, StimulusSource.internalQueue,
             StimulusSource.localWakeup, StimulusSource.cooldownTimer]) ∧
      (¬ now < cu →
        armed_sources now cu
          = [StimulusSource.streams, StimulusSource.internalQueue,
             StimulusSource.localWakeup, StimulusSource.inboxPop,
             StimulusSource.alarmTimer]) ∧
      (StimulusSource.streams ∈ armed_sources now cu ∧
        StimulusSource.internalQueue ∈ armed_sources now cu ∧
        StimulusSource.localWakeup ∈ armed_sources now cu) ∧
      (10 ≤ uInbox → uInbox ≤ 30 → 10 ≤ uAlarm → uAlarm ≤ 30 →
        (alarmCycle = true →
          tAlarm + 10
              ≤ iteration_final_cooldown cu0 chatCycle tChat inboxCycle tInbox
                  uInbox alarmCycle tAlarm uAlarm ∧
          iteration_final_cooldown cu0 chatCycle tChat inboxCycle tInbox uInbox
              alarmCycle tAlarm uAlarm ≤ tAlarm + 30) ∧
        (alarmCycle = false → inboxCycle = true →
          tInbox + 10
              ≤ iteration_final_cooldown cu0 chatCycle tChat inboxCycle tInbox
                  uInbox alarmCycle tAlarm uAlarm ∧
          iteration_final_cooldown cu0 chatCycle tChat inboxCycle tInbox uInbox
              alarmCycle tAlarm uAlarm ≤ tInbox + 30)) := by
  intro now cu cu0 chatCycle tChat inboxCycle tInbox uInbox alarmCycle tAlarm uAlarm
  have harm : ∀ h : now < cu,
      armed_sources now cu
        = [StimulusSource.streams, StimulusSource.internalQueue,
           StimulusSource.localWakeup, StimulusSource.cooldownTimer] := by
    intro h
    rw [armed_sources]
    rw [if_pos h, if_pos (sub_pos.mpr h)]
    rfl
  refine ⟨harm, ?_, ?_, ?_⟩
  · intro h
    rw [armed_sources, if_neg h]
    rfl
  · by_cases h : now < cu
    · rw [harm h]
      refine ⟨by simp, by simp, by simp⟩
    · rw [armed_sources, if_neg h]
      refine ⟨by simp, by simp, by simp⟩
  · intro h1 h2 h3 h4
    constructor
    · intro ha
      simp only [iteration_final_cooldown, ha, if_true, post_alarm_cooldown]
      constructor <;> linarith
    · intro ha hi
      simp only [iteration_final_cooldown, ha, hi, post_inbox_cooldown,
        post_alarm_cooldown, Bool.false_eq_true, if_false, if_true]
      constructor <;> linarith

/-- C9 witness at concrete times. -/
theorem C9_refractory_witness :
    armed_sources 100 200
      = [StimulusSource.streams, StimulusSource.internalQueue,
         StimulusSource.localWakeup, StimulusSource.cooldownTimer] ∧
    iteration_final_cooldown 0 false 0 true 500 12 false 0 15 ≤ 500 + 30 :=
  ⟨(C9_refractory 100 200 0 false 0 true 500 12 false 0 15).1 (by norm_num),
   (((C9_refractory 100 200 0 false 0 true 500 12 false 0 15).2.2.2
      (by norm_num) (by norm_num) (by norm_num) (by norm_num)).2 rfl rfl).2⟩

/-- C10: with `NTFY_URL` or `NTFY_TOKEN` unset, the module-level guard on
line 81 of guppi.py references `logger` before its assignment on line 125,
so module initialization raises `NameError` and the daemon never starts;
with both set, the configuration block completes. -/
theorem C10_ntfy_unset_raises_nameerror :
    ∀ ntfy_url_set ntfy_token_set : Bool,
      ((ntfy_url_set && ntfy_token_set) = false →
        runModuleStmts [] (guppi_module_config ntfy_url_set ntfy_token_set)
          = Except.error "NameError: name logger is not defined") ∧
      ((ntfy_url_set && ntfy_token_set) = true →
        ∃ env, runModuleStmts [] (guppi_module_config ntfy_url_set ntfy_token_set)
          = Except.ok env) := by
  intro u t
  cases u <;> cases t
  · exact ⟨fun _ => rfl, fun h => Bool.noConfusion h⟩
  · exact ⟨fun _ => rfl, fun h => Bool.noConfusion h⟩
  · exact ⟨fun _ => rfl, fun h => Bool.noConfusion h⟩
  · exact ⟨fun h => Bool.noConfusion h, fun _ => ⟨_, rfl⟩⟩

/-- C10 witness: `NTFY_TOKEN` unset aborts module import with `NameError`. -/
theorem C10_ntfy_unset_raises_nameerror_witness :
    runModuleStmts [] (guppi_module_config true false)
      = Except.error "NameError: name logger is not defined" :=
  (C10_ntfy_unset_raises_nameerror true false).1 rfl

/-- C7: a non-scribe, non-maintenance message that triggers a think cycle,
handled twice with the second handling inside the 90-second TTL window,
yields exactly one think cycle: the duplicate is dropped before archiving or
thinking.  Scribe results and maintenance messages are never dropped: their
minted fingerprint is fresh, so the cache gains at most that fresh id and the
message's own content fingerprint is never cached. -/
theorem C7_dedupe_idempotence :
    ∀ (m : NormObserved) (u1 u2 u : String) (t1 t2 t : ℚ)
      (cache : List (String × ℚ)),
      (dedupe_evt_type m ≠ "ScribeResult" → is_maintenance m = false →
        m.meta_job_type ≠ some "update_stub" → t2 - 90 < t1 →
        (handle_inbox_item [] m u1 t1).2.ranThinkCycle = true ∧
        (handle_inbox_item [] m u1 t1).2.droppedDuplicate = false ∧
        (handle_inbox_item (handle_inbox_item [] m u1 t1).1 m u2 t2).2
          = { droppedDuplicate := true, archived := false,
              ranThinkCycle := false }) ∧
      ((dedupe_evt_type m = "ScribeResult" ∨ is_maintenance m = true) →
        (∀ v : ℚ, ("scribe:" ++ u, v) ∉ cache) →
        (handle_inbox_item cache m u t).2.droppedDuplicate = false ∧
        ∀ kv ∈ (handle_inbox_item cache m u t).1,
          kv ∈ cache ∨ kv = ("scribe:" ++ u, t)) := by
  intro m u1 u2 u t1 t2 t cache
  constructor
  · intro hs hm hj ht
    have hmm : (m.meta_maintenance_true || m.meta_has_source_tier_1) = false := by
      simp only [is_maintenance, Bool.or_eq_false_iff] at hm
      simp [hm.1.1, hm.1.2]
    have hjob : ¬((m.meta_job_type == some "update_stub") = true) := by
      simp only [beq_iff_eq]
      exact hj
    have h1 : handle_inbox_item [] m u1 t1
        = ([(trigger_id m u1, t1)],
           { droppedDuplicate := false, archived := archive_should m,
             ranThinkCycle := true }) := by
      simp only [handle_inbox_item, prune_triggers, List.filter_nil,
        List.map_nil, List.nil_append]
      rw [if_neg (List.not_mem_nil _), if_neg hjob,
        if_neg (by rw [hmm]; exact Bool.false_ne_true)]
    have htid : trigger_id m u2 = trigger_id m u1 :=
      trigger_id_nonscribe m u2 u1 hs hm
    have h2mem : trigger_id m u2
        ∈ (prune_triggers [(trigger_id m u1, t1)] t2 90).map Prod.fst := by
      rw [htid]
      have hkeep : prune_triggers [(trigger_id m u1, t1)] t2 90
          = [(trigger_id m u1, t1)] := by
        simp only [prune_triggers, List.filter_cons, List.filter_nil]
        rw [if_pos (by simpa using ht)]
      rw [hkeep]
      simp
    refine ⟨by rw [h1], by rw [h1], ?_⟩
    rw [h1]
    simp only [handle_inbox_item]
    rw [if_pos h2mem]
  · intro hscribe hfresh
    have htid : trigger_id m u = "scribe:" ++ u := trigger_id_scribe m u hscribe
    have hnm : trigger_id m u ∉ (prune_triggers cache t 90).map Prod.fst := by
      rw [htid]
      intro hmem
      rcases List.mem_map.mp hmem with ⟨kv, hkv, hfst⟩
      have hc : kv ∈ cache := List.mem_of_mem_filter hkv
      have : ("scribe:" ++ u, kv.2) = kv := by
        rw [← hfst]
      exact hfresh kv.2 (this ▸ hc)
    have hcache : (handle_inbox_item cache m u t).1
        = prune_triggers cache t 90 ++ [(trigger_id m u, t)] := by
      simp only [handle_inbox_item]
      rw [if_neg hnm]
      split
      · rfl
      · split
        · rfl
        · rfl
    have hdrop : (handle_inbox_item cache m u t).2.droppedDuplicate = false := by
      simp only [handle_inbox_item]
      rw [if_neg hnm]
      split
      · rfl
      · split
        · rfl
        · rfl
    refine ⟨hdrop, ?_⟩
    intro kv hkv
    rw [hcache] at hkv
    rcases List.mem_append.mp hkv with hkv | hkv
    · exact Or.inl (List.mem_of_mem_filter hkv)
    · rcases List.mem_singleton.mp hkv with rfl
      exact Or.inr (by rw [htid])

/-- C7 witness: a concrete human message handled twice 5 seconds apart, and a
concrete scribe result against a concrete cache. -/
theorem C7_dedupe_idempotence_witness :
    (handle_inbox_item
        (handle_inbox_item [] { event_type := some "NewInboxMessage",
                                content_snip := "hello",
                                kind := "HumanMessage" } "u1" 100).1
        { event_type := some "NewInboxMessage",
          content_snip := "hello",
          kind := "HumanMessage" } "u2" 105).2
      = { droppedDuplicate := true, archived := false, ranThinkCycle := false } ∧
    (handle_inbox_item [("NewInboxMessage:hello", 100)]
        { event_type := some "ScribeResult", kind := "ScribeResult" }
        "u3" 105).2.droppedDuplicate = false :=
  ⟨((C7_dedupe_idempotence
      { event_type := some "NewInboxMessage",
        content_snip := "hello",
        kind := "HumanMessage" } "u1" "u2" "u" 100 105 0 []).1
      (by decide) (by decide) (by decide) (by norm_num)).2.2,
   ((C7_dedupe_idempotence
      { event_type := some "ScribeResult", kind := "ScribeResult" }
      "u1" "u2" "u3" 100 105 105 [("NewInboxMessage:hello", 100)]).2
      (Or.inl (by decide)) (by intro v h; simp at h)).1⟩

/-- Looking up a name just written finds the written content, provided the
name was absent before. -/
theorem fsLookup_write_self (fs : OverflowFs) (n : String) (c : PyStr)
    (h : fsLookup fs n = none) : fsLookup (fsWrite fs n c) n = some c := by
  have hfind : fs.find? (fun kv => kv.1 == n) = none := by
    rcases hf : fs.find? (fun kv => kv.1 == n) with _ | kv
    · exact hf
    · rw [fsLookup, hf] at h
      exact Option.noConfusion h
  rw [fsWrite, fsLookup, List.find?_append, hfind, Option.none_or]
  simp [List.find?]

/-- Writing one name does not change the lookup of another. -/
theorem fsLookup_write_other (fs : OverflowFs) (n m : String) (c : PyStr)
    (h : n ≠ m) : fsLookup (fsWrite fs m c) n = fsLookup fs n := by
  rw [fsWrite, fsLookup, fsLookup, List.find?_append]
  have hmn : (m == n) = false := by
    simp only [beq_eq_false_iff_ne]
    exact fun hh => h hh.symm
  have hone : ([(m, c)].find? (fun kv => kv.1 == n)) = none := by
    simp [List.find?, hmn]
  rw [hone, Option.or_none]

/-- The spec's overflow round-trip formula (§8 of the spec):
`S[:C/2] + marker(len(S) - C, fname) + S[-C/2:]`, written with the marker
text the source emits.  Stated from the spec's words, to be compared with
the source's `process_text`. -/
def spec_overflow_field (C : Nat) (fname : String) (S : PyStr) : PyStr :=
  S.take (C / 2) ++ overflowMarkerA ++ (toString (S.length - C)).data
    ++ overflowMarkerB ++ fname.data ++ overflowMarkerC ++ pyTakeLast (C / 2) S

/-- `_process_text` on a field that exceeds its cap, with the overflow file
not yet present: the field becomes the spec's `head + marker + tail` formula
with `split = cap / 2`, and the full text is written to the overflow file. -/
theorem process_text_spec (cap : Nat) (turn_id suffix : String)
    (fs : OverflowFs) (S : PyStr) (hlen : cap < S.length)
    (habsent : fsLookup fs (turn_id ++ suffix ++ ".txt") = none) :
    process_text cap turn_id fs S suffix
      = (spec_overflow_field cap (turn_id ++ suffix ++ ".txt") S,
         fsWrite fs (turn_id ++ suffix ++ ".txt") S) := by
  simp only [process_text, spec_overflow_field]
  rw [if_neg (by omega), habsent]
  simp [List.append_assoc]

/-- `sanitize_entry` on an entry whose results dict has a string `stdout` and
no `stderr`. -/
theorem sanitize_entry_dict (cap : Nat) (fs : OverflowFs) (e : Entry)
    (d : RDict) (sOut : PyStr) (hr : e.results = .dict d)
    (hs : d.stdout = some sOut) (he : d.stderr = none) :
    sanitize_entry cap fs e
      = ({ e with results := .dict { d with
             stdout := some (process_text cap e.id fs sOut "-stdout").1,
             stderr := none } },
         (process_text cap e.id fs sOut "-stdout").2) := by
  obtain ⟨eid, ety, eag, epe, est, eres, ets⟩ := e
  simp only at hr
  subst hr
  simp only [sanitize_entry, hs, he]

/-- C8: in the assembled log window the most recent entry is capped at 50000
characters and every older entry at 1000; a `stdout` field `S` exceeding its
cap `C` becomes `S[:C/2] + marker + S[-C/2:]`, where the marker names the
`len(S) - C` removed characters and the overflow file `{id}-stdout.txt`, and
that overflow file afterwards contains `S` verbatim (stated for a window of
two entries over any journal buffer, with the overflow files initially
absent and distinct). -/
theorem C8_overflow_roundtrip :
    ∀ (es : List Entry) (eOld eNew : Entry) (dOld dNew : RDict)
      (sOld sNew : PyStr) (fs : OverflowFs),
      eOld.results = .dict dOld → dOld.stdout = some sOld → dOld.stderr = none →
      eNew.results = .dict dNew → dNew.stdout = some sNew → dNew.stderr = none →
      1000 < sOld.length → 50000 < sNew.length →
      fsLookup fs (eOld.id ++ "-stdout" ++ ".txt") = none →
      fsLookup fs (eNew.id ++ "-stdout" ++ ".txt") = none →
      eOld.id ++ "-stdout" ++ ".txt" ≠ eNew.id ++ "-stdout" ++ ".txt" →
      sanitize_history_block (es ++ [eOld, eNew]) 2 fs
        = ([{ eOld with
              results := .dict { dOld with
                stdout := some (spec_overflow_field 1000
                  (eOld.id ++ "-stdout" ++ ".txt") sOld),
                stderr := none } },
            { eNew with
              results := .dict { dNew with
                stdout := some (spec_overflow_field 50000
                  (eNew.id ++ "-stdout" ++ ".txt") sNew),
                stderr := none } }],
           fsWrite (fsWrite fs (eOld.id ++ "-stdout" ++ ".txt") sOld)
             (eNew.id ++ "-stdout" ++ ".txt") sNew) ∧
      fsLookup (sanitize_history_block (es ++ [eOld, eNew]) 2 fs).2
          (eOld.id ++ "-stdout" ++ ".txt") = some sOld ∧
      fsLookup (sanitize_history_block (es ++ [eOld, eNew]) 2 fs).2
          (eNew.id ++ "-stdout" ++ ".txt") = some sNew := by
  intro es eOld eNew dOld dNew sOld sNew fs hrO hsO heO hrN hsN heN hlO hlN
    haO haN hne
  have hwin : pyTakeLast 2 (es ++ [eOld, eNew]) = [eOld, eNew] := by
    rw [pyTakeLast, List.length_append]
    have h2 : ([eOld, eNew] : List Entry).length = 2 := rfl
    rw [h2, Nat.add_sub_cancel]
    exact List.drop_left es [eOld, eNew]
  have habsN : fsLookup (fsWrite fs (eOld.id ++ "-stdout" ++ ".txt") sOld)
      (eNew.id ++ "-stdout" ++ ".txt") = none := by
    rw [fsLookup_write_other fs _ _ sOld (Ne.symm hne)]
    exact haN
  have hOld := sanitize_entry_dict 1000 fs eOld dOld sOld hrO hsO heO
  have hNew := sanitize_entry_dict 50000
    (fsWrite fs (eOld.id ++ "-stdout" ++ ".txt") sOld) eNew dNew sNew hrN hsN heN
  rw [process_text_spec 1000 eOld.id "-stdout" fs sOld hlO haO] at hOld
  rw [process_text_spec 50000 eNew.id "-stdout" _ sNew hlN habsN] at hNew
  have hmain := And.intro hOld hNew
  constructor
  · simp only [sanitize_history_block, hwin, sanitize_entries, hOld, hNew]
  · have hfs2 : (sanitize_history_block (es ++ [eOld, eNew]) 2 fs).2
        = fsWrite (fsWrite fs (eOld.id ++ "-stdout" ++ ".txt") sOld)
            (eNew.id ++ "-stdout" ++ ".txt") sNew := by
      simp only [sanitize_history_block, hwin, sanitize_entries, hOld, hNew]
    constructor
    · rw [hfs2, fsLookup_write_other _ _ _ sNew hne]
      exact fsLookup_write_self fs _ sOld haO
    · rw [hfs2]
      exact fsLookup_write_self _ _ sNew habsN

/-! ## Governor sliding-window lemmas (C5) -/

/-- The new history left by `check_limit`: the filtered window, plus the call
time when the call was accepted. -/
theorem check_limit_fst (s : List ℚ) (now : ℚ) :
    (check_limit s now).1
      = s.filter (fun t => now - t < GOVERNOR_WINDOW)
          ++ (if (check_limit s now).2 then [now] else []) := by
  simp only [check_limit]
  by_cases h : GOVERNOR_LIMIT ≤ (s.filter (fun t => now - t < GOVERNOR_WINDOW)).length
  · simp [h]
  · simp [h]

/-- An accepted call found at most `GOVERNOR_LIMIT - 1` prior accepted calls
inside the trailing window. -/
theorem check_limit_accept_length (s : List ℚ) (now : ℚ)
    (h : (check_limit s now).2 = true) :
    (s.filter (fun t => now - t < GOVERNOR_WINDOW)).length + 1 ≤ GOVERNOR_LIMIT := by
  simp only [check_limit] at h
  by_cases hl : GOVERNOR_LIMIT ≤ (s.filter (fun t => now - t < GOVERNOR_WINDOW)).length
  · simp [hl] at h
  · omega

/-- The accepted trace is a subsequence of the call-time trace. -/
theorem govAccepts_sublist (ts : List ℚ) :
    ∀ s, List.Sublist (govAccepts s ts) ts := by
  induction ts with
  | nil => intro s; simp [govAccepts]
  | cons t ts ih =>
    intro s
    simp only [govAccepts]
    by_cases h : (check_limit s t).2 = true
    · rw [if_pos h]
      exact List.Sublist.cons₂ t (ih _)
    · rw [if_neg h]
      exact List.Sublist.cons t (ih _)

/-- Re-filtering an already-filtered window at a later time keeps exactly the
later window: a time within the later window was within the earlier one. -/
theorem filter_window_mono (s : List ℚ) (t0 t : ℚ) (hle : t0 ≤ t) :
    (s.filter (fun x => t0 - x < GOVERNOR_WINDOW)).filter
        (fun x => t - x < GOVERNOR_WINDOW)
      = s.filter (fun x => t - x < GOVERNOR_WINDOW) := by
  rw [List.filter_filter]
  apply List.filter_congr
  intro x _
  by_cases hw : t - x < GOVERNOR_WINDOW
  · have h0 : t0 - x < GOVERNOR_WINDOW := by linarith
    simp [hw, h0]
  · simp [hw]

/-- Crowding bound: at every accepted call time `t`, the state entries still
inside `t`'s window plus the previously accepted calls inside `t`'s window
number at most `GOVERNOR_LIMIT - 1`. -/
theorem govAccepts_crowding :
    ∀ (times : List ℚ) (s : List ℚ),
      List.Sorted (· ≤ ·) times →
      (∀ x ∈ s, ∀ t ∈ times, x ≤ t) →
      ∀ (A₁ : List ℚ) (t : ℚ) (A₂ : List ℚ),
        govAccepts s times = A₁ ++ t :: A₂ →
        (s.filter (fun x => t - x < GOVERNOR_WINDOW)).length
            + A₁.countP (fun x => t - x < GOVERNOR_WINDOW) + 1 ≤ GOVERNOR_LIMIT := by
  intro times
  induction times with
  | nil =>
    intro s _ _ A₁ t A₂ h
    simp only [govAccepts] at h
    exact absurd h (by simp)
  | cons t₀ ts ih =>
    intro s hsort hbound A₁ t A₂ heq
    have hp := List.sorted_cons.mp hsort
    simp only [govAccepts] at heq
    by_cases hacc : (check_limit s t₀).2 = true
    · rw [if_pos hacc] at heq
      have hstate : (check_limit s t₀).1
          = s.filter (fun x => t₀ - x < GOVERNOR_WINDOW) ++ [t₀] := by
        rw [check_limit_fst, if_pos hacc]
      cases A₁ with
      | nil =>
        simp only [List.nil_append] at heq
        injection heq with h1 h2
        subst h1
        have hlen := check_limit_accept_length s t₀ hacc
        simp only [List.countP_nil]
        omega
      | cons a A₁' =>
        rw [List.cons_append] at heq
        injection heq with h1 h2
        subst h1
        have hmem_t : t ∈ ts := by
          have hmem : t ∈ govAccepts (check_limit s t₀).1 ts := by
            rw [h2]
            exact List.mem_append_right _ (List.mem_cons_self _ _)
          exact (govAccepts_sublist ts _).subset hmem
        have ht0t : t₀ ≤ t := hp.1 t hmem_t
        have hb' : ∀ x ∈ (check_limit s t₀).1, ∀ u ∈ ts, x ≤ u := by
          intro x hx u hu
          rw [hstate] at hx
          rcases List.mem_append.mp hx with hx | hx
          · exact hbound x (List.mem_of_mem_filter hx) u (List.mem_cons_of_mem _ hu)
          · rcases List.mem_singleton.mp hx with rfl
            exact hp.1 u hu
        have hIH := ih (check_limit s t₀).1 hp.2 hb' A₁' t A₂ h2
        rw [hstate, List.filter_append, filter_window_mono s t₀ t ht0t,
          List.length_append] at hIH
        rw [List.countP_cons]
        by_cases hw : t - t₀ < GOVERNOR_WINDOW
        · simp only [List.filter_cons, List.filter_nil, hw, decide_True,
            if_true, List.length_cons, List.length_nil] at hIH
          simp only [hw, decide_True, if_true]
          omega
        · simp only [List.filter_cons, List.filter_nil, hw, decide_False,
            Bool.false_eq_true, if_false, List.length_nil] at hIH
          simp only [hw, decide_False, Bool.false_eq_true, if_false]
          omega
    · rw [if_neg hacc] at heq
      have hstate : (check_limit s t₀).1
          = s.filter (fun x => t₀ - x < GOVERNOR_WINDOW) := by
        rw [check_limit_fst, if_neg hacc, List.append_nil]
      have hmem_t : t ∈ ts := by
        have hmem : t ∈ govAccepts (check_limit s t₀).1 ts := by
          rw [heq]
          exact List.mem_append_right _ (List.mem_cons_self _ _)
        exact (govAccepts_sublist ts _).subset hmem
      have ht0t : t₀ ≤ t := hp.1 t hmem_t
      have hb' : ∀ x ∈ (check_limit s t₀).1, ∀ u ∈ ts, x ≤ u := by
        intro x hx u hu
        rw [hstate] at hx
        exact hbound x (List.mem_of_mem_filter hx) u (List.mem_cons_of_mem _ hu)
      have hIH := ih (check_limit s t₀).1 hp.2 hb' A₁ t A₂ heq
      rw [hstate, filter_window_mono s t₀ t ht0t] at hIH
      exact hIH

/-- From the crowding bound at every accepted call, any sliding window of
length `GOVERNOR_WINDOW` contains at most `GOVERNOR_LIMIT` accepted calls. -/
theorem window_count_of_crowding :
    ∀ l : List ℚ,
      List.Sorted (· ≤ ·) l →
      (∀ (A₁ : List ℚ) (t : ℚ) (A₂ : List ℚ), l = A₁ ++ t :: A₂ →
        A₁.countP (fun x => t - x < GOVERNOR_WINDOW) + 1 ≤ GOVERNOR_LIMIT) →
      ∀ T : ℚ,
        l.countP (fun x => T - GOVERNOR_WINDOW < x ∧ x ≤ T) ≤ GOVERNOR_LIMIT := by
  intro l
  induction l using List.reverseRecOn with
  | nil =>
    intro _ _ T
    simp [GOVERNOR_LIMIT]
  | append_singleton l a ih =>
    intro hsort hcrowd T
    have hsort' : List.Sorted (· ≤ ·) l :=
      List.Pairwise.sublist (List.sublist_append_left l [a]) hsort
    have hcrowd' : ∀ (A₁ : List ℚ) (t : ℚ) (A₂ : List ℚ), l = A₁ ++ t :: A₂ →
        A₁.countP (fun x => t - x < GOVERNOR_WINDOW) + 1 ≤ GOVERNOR_LIMIT := by
      intro A₁ t A₂ h
      exact hcrowd A₁ t (A₂ ++ [a]) (by rw [h]; simp)
    rw [List.countP_append]
    by_cases hin : T - GOVERNOR_WINDOW < a ∧ a ≤ T
    · have h1 : l.countP (fun x => T - GOVERNOR_WINDOW < x ∧ x ≤ T)
          ≤ l.countP (fun x => a - x < GOVERNOR_WINDOW) := by
        apply List.countP_mono_left
        intro x _ hx
        simp only [decide_eq_true_eq] at hx ⊢
        linarith [hx.1, hx.2, hin.2]
      have h2 := hcrowd l a [] (by simp)
      have h3 : ([a].countP (fun x => T - GOVERNOR_WINDOW < x ∧ x ≤ T)) = 1 := by
        simp [hin]
      rw [h3]
      omega
    · have h3 : ([a].countP (fun x => T - GOVERNOR_WINDOW < x ∧ x ≤ T)) = 0 := by
        simp only [List.countP_cons, List.countP_nil]
        simp [hin]
      rw [h3]
      have hl := ih hsort' hcrowd' T
      omega

/-- C5: over any monotone trace of call times, at most `GOVERNOR_LIMIT = 15`
non-urgent think cycles pass `check_limit` inside any sliding window of
`GOVERNOR_WINDOW = 300` seconds; urgent cycles never consult the governor and
always proceed; and a rejected non-urgent cycle logs a rate-limit alert, sets
`cooldown_until = now + 60`, and returns without reaching the LLM call. -/
theorem C5_governor :
    (∀ times : List ℚ, List.Sorted (· ≤ ·) times →
      ∀ T : ℚ, (govAccepts [] times).countP
          (fun x => T - GOVERNOR_WINDOW < x ∧ x ≤ T) ≤ GOVERNOR_LIMIT) ∧
    (∀ (d : EventData) (notice : Option String) (hist : List ℚ) (now : ℚ),
      is_urgent d notice = true →
        governor_gate d notice hist now = (hist, GateOutcome.proceed)) ∧
    (∀ (d : EventData) (notice : Option String) (hist : List ℚ) (now : ℚ),
      is_urgent d notice = false → (check_limit hist now).2 = false →
        governor_gate d notice hist now
          = ((check_limit hist now).1, GateOutcome.rejected true (now + 60))) := by
  refine ⟨?_, ?_, ?_⟩
  · intro times hsort T
    apply window_count_of_crowding
    · exact List.Pairwise.sublist (govAccepts_sublist times []) hsort
    · intro A₁ t A₂ h
      have hc := govAccepts_crowding times [] hsort
        (by intro x hx; exact absurd hx (List.not_mem_nil x)) A₁ t A₂ h
      simpa using hc
  · intro d notice hist now h
    rw [governor_gate, if_pos h]
  · intro d notice hist now h1 h2
    simp only [governor_gate]
    rw [if_neg (by rw [h1]; exact Bool.false_ne_true),
      if_neg (by rw [h2]; exact Bool.false_ne_true)]

/-- C5 witness: an urgent synchronous-chat cycle proceeds untouched, and a
concrete two-call trace stays within the window bound. -/
theorem C5_governor_witness :
    governor_gate { channel := some "chat:synchronous" } none [] 0
      = ([], GateOutcome.proceed) ∧
    (govAccepts [] [(1 : ℚ), 2]).countP
        (fun x => (400 : ℚ) - GOVERNOR_WINDOW < x ∧ x ≤ 400) ≤ GOVERNOR_LIMIT :=
  ⟨C5_governor.2.1 { channel := some "chat:synchronous" } none [] 0 rfl,
   C5_governor.1 [1, 2] (by decide) 400⟩

/-- C8 witness: a two-entry window with concrete oversized stdout captures
of 1001 and 50001 characters over an empty overflow directory. -/
theorem C8_overflow_roundtrip_witness :
    fsLookup (sanitize_history_block
        [{ id := "turn-a", type := "AbeTurn",
           results := .dict { stdout := some (List.replicate 1001 'x') } },
         { id := "turn-b", type := "AbeTurn",
           results := .dict { stdout := some (List.replicate 50001 'y') } }]
        2 []).2 ("turn-b" ++ "-stdout" ++ ".txt")
      = some (List.replicate 50001 'y') :=
  (C8_overflow_roundtrip []
    { id := "turn-a", type := "AbeTurn",
      results := .dict { stdout := some (List.replicate 1001 'x') } }
    { id := "turn-b", type := "AbeTurn",
      results := .dict { stdout := some (List.replicate 50001 'y') } }
    { stdout := some (List.replicate 1001 'x') }
    { stdout := some (List.replicate 50001 'y') }
    (List.replicate 1001 'x') (List.replicate 50001 'y') []
    rfl rfl rfl rfl rfl rfl
    (by simp only [List.length_replicate]; omega)
    (by simp only [List.length_replicate]; omega)
    rfl rfl (by decide)).2.2

end Volition
